import Mathlib

/-! # SpaceX launch-records dashboard: embedding and verification

Shallow embedding of `spacex-dash-app.py`: the launch table loaded from
`spacex_launch_dash.csv`, the two Dash callbacks `get_pie_chart` and
`get_scatter_chart`, and the start-up port-selection block of the
`__main__` guard, together with proofs of the testable properties stated
in the specification. -/

namespace SpacexDash

/-- One row of the launch table `spacex_df`.  `cls` models the `class`
column (the binary launch-outcome indicator), `payloadMass` the
`Payload Mass (kg)` column, `launchSite` the `Launch Site` column and
`boosterVersionCategory` the `Booster Version Category` column. -/
structure LaunchRow where
  launchSite : String
  payloadMass : ℚ
  cls : Int
  boosterVersionCategory : String
  deriving DecidableEq, Repr

/-- The in-memory table: a list of launch rows. -/
abbrev DataFrame := List LaunchRow

/-- Boolean-mask filter `df[df[«class»] == c]` on the outcome column. -/
def filterClassEq (df : DataFrame) (c : Int) : DataFrame :=
  df.filter (fun r => r.cls == c)

/-- Boolean-mask filter `df[df[«Launch Site»] == site]`. -/
def filterSiteEq (df : DataFrame) (site : String) : DataFrame :=
  df.filter (fun r => r.launchSite == site)

/-- `value_counts()` of the `Launch Site` column of `df`: one
`(site, count)` pair per distinct value appearing in the column, where the
count is the number of rows of `df` carrying that site.  pandas returns the
pairs ordered by count, largest first; the order is irrelevant to every
property proved below, which only concern the multiset of pairs. -/
def siteValueCounts (df : DataFrame) : List (String × Nat) :=
  (((df.map (fun r => r.launchSite)).dedup).map
    (fun s => (s, (df.map (fun r => r.launchSite)).count s))).mergeSort
    (fun a b => b.2 ≤ a.2)

/-- The data of a figure produced by `px.pie`: the parallel `values` and
`names` arguments are recorded as a list of `(name, value)` slices,
together with the `title` argument. -/
structure PieFig where
  slices : List (String × Nat)
  title : String
  deriving DecidableEq, Repr

/-- The callback wired from `site-dropdown` to `success-pie-chart`.
For the sentinel value `ALL` it renders the per-site counts of rows with
`class == 1`; otherwise it filters to the chosen site and renders the
two-slice Success / Failed breakdown. -/
def get_pie_chart (df : DataFrame) (entered_site : String) : PieFig :=
  if entered_site == "ALL" then
    let success_by_site := siteValueCounts (filterClassEq df 1)
    { slices := success_by_site
      title := "Total Success Launches by Site" }
  else
    let filtered_df := filterSiteEq df entered_site
    let success_count := (filterClassEq filtered_df 1).length
    let failed_count := (filterClassEq filtered_df 0).length
    { slices := [("Success", success_count), ("Failed", failed_count)]
      title := "Success vs Failed Launches for " ++ entered_site }

/-- The data of a figure produced by `px.scatter`: one point per row of the
frame handed to it, carrying the x value (payload mass), the y value (the
outcome class) and the colour key (booster version category), together
with the `title` argument. -/
structure ScatterFig where
  points : List (ℚ × Int × String)
  title : String
  deriving DecidableEq, Repr

/-- The callback wired from `site-dropdown` and `payload-slider` to
`success-payload-scatter-chart`.  It first keeps the rows whose payload
mass lies between the two entries of the slider value (both comparisons
non-strict), then, unless the site is `ALL`, keeps the rows of the chosen
site, and renders the result. -/
def get_scatter_chart (df : DataFrame) (entered_site : String)
    (payload_range : ℚ × ℚ) : ScatterFig :=
  let filtered_df := df.filter (fun r =>
    payload_range.1 ≤ r.payloadMass && r.payloadMass ≤ payload_range.2)
  let site_df := if entered_site != "ALL"
    then filterSiteEq filtered_df entered_site
    else filtered_df
  { points := site_df.map (fun r =>
      (r.payloadMass, r.cls, r.boosterVersionCategory))
    title := "Correlation between Payload Mass and Launch Success" }

/-- The list of alternative ports probed, in source order, when port 8050
is busy and no command-line argument was given. -/
def altPorts : List Int := [8051, 8052, 8053, 8054, 8055]

/-- The no-argument branch of the `__main__` port-selection block.
`available p` models `is_port_available(p)`; the result `none` models the
`sys.exit(1)` reached by the for-else when no alternative is free, and
`some p` models falling through to `app.run` with `port = p`. -/
def selectPortNoArg (available : Int → Bool) : Option Int :=
  if available 8050 then some 8050
  else
    match altPorts.find? available with
    | some p => some p
    | none => none

/-- The whole `__main__` port-selection block.  `argv1?` is `none` when
`len(sys.argv) <= 1`; otherwise it carries the outcome of the `int(...)`
conversion applied to `sys.argv[1]`: `some p` when the conversion succeeds
with value `p`, and `none` when it raises `ValueError`, in which case the
handler prints a warning and restores the default port 8050. -/
def choosePort (argv1? : Option (Option Int)) (available : Int → Bool) :
    Option Int :=
  match argv1? with
  | some parsed =>
    match parsed with
    | some p => some p
    | none => some 8050
  | none => selectPortNoArg available

/-- A UI event dispatched by the framework to one of the two callbacks. -/
inductive Callback where
  | pie (site : String)
  | scatter (site : String) (payload_range : ℚ × ℚ)
  deriving DecidableEq, Repr

/-- The figure returned by a callback invocation. -/
inductive Figure where
  | pie (fig : PieFig)
  | scatter (fig : ScatterFig)
  deriving DecidableEq, Repr

/-- One reactive dispatch against the process state, which is the loaded
table `spacex_df`.  The invoked callback computes its figure from the
table; neither callback body contains an assignment to `spacex_df` or an
in-place pandas operation (boolean-mask indexing, `len`, `value_counts`,
`pd.DataFrame`, `px.pie` and `px.scatter` all build fresh objects), so the
table component of the state is passed through unchanged. -/
def dispatch (st : DataFrame) : Callback → Figure × DataFrame
  | .pie site => (.pie (get_pie_chart st site), st)
  | .scatter site pr => (.scatter (get_scatter_chart st site pr), st)

/-- The table left behind by a sequence of callback invocations. -/
def runCallbacks (st : DataFrame) : List Callback → DataFrame
  | [] => st
  | c :: cs => runCallbacks (dispatch st c).2 cs

/-- A small concrete launch table used to instantiate the theorems. -/
def sampleDf : DataFrame :=
  [ ⟨"CCAFS LC-40", 2500, 1, "v1.0"⟩,
    ⟨"CCAFS LC-40", 3000, 0, "v1.1"⟩,
    ⟨"KSC LC-39A", 4500, 1, "FT"⟩,
    ⟨"KSC LC-39A", 5000, 1, "FT"⟩ ]

/-! ## Helper lemmas -/

theorem dispatch_table_eq (st : DataFrame) (c : Callback) :
    (dispatch st c).2 = st := by
  cases c <;> rfl

theorem runCallbacks_table_eq (st : DataFrame) (cs : List Callback) :
    runCallbacks st cs = st := by
  induction cs with
  | nil => rfl
  | cons c cs ih => rw [runCallbacks, dispatch_table_eq]; exact ih

theorem mem_scatter_points (df : DataFrame) (site : String) (pr : ℚ × ℚ)
    (pt : ℚ × Int × String)
    (hpt : pt ∈ (get_scatter_chart df site pr).points) :
    ∃ r ∈ df, pt = (r.payloadMass, r.cls, r.boosterVersionCategory)
      ∧ (pr.1 ≤ r.payloadMass ∧ r.payloadMass ≤ pr.2)
      ∧ (site ≠ "ALL" → r.launchSite = site) := by
  simp only [get_scatter_chart] at hpt
  by_cases hs : site = "ALL"
  · subst hs
    rw [if_neg (by simp)] at hpt
    obtain ⟨r, hr, hpt_eq⟩ := List.mem_map.mp hpt
    obtain ⟨hrdf, hcond⟩ := List.mem_filter.mp hr
    simp only [Bool.and_eq_true, decide_eq_true_eq] at hcond
    exact ⟨r, hrdf, hpt_eq.symm, hcond, fun h => absurd rfl h⟩
  · rw [if_pos (by simp [hs])] at hpt
    obtain ⟨r, hr, hpt_eq⟩ := List.mem_map.mp hpt
    simp only [filterSiteEq] at hr
    obtain ⟨hr2, hsite⟩ := List.mem_filter.mp hr
    obtain ⟨hrdf, hcond⟩ := List.mem_filter.mp hr2
    simp only [Bool.and_eq_true, decide_eq_true_eq] at hcond
    simp only [beq_iff_eq] at hsite
    exact ⟨r, hrdf, hpt_eq.symm, hcond, fun _ => hsite⟩

/-! ## Claim theorems -/

/-- C2: for the scatter-chart callback with payload range `(lo, hi)` and
`lo ≤ hi`, every rendered point has a payload mass `p` with
`lo ≤ p ≤ hi`, both bounds inclusive. -/
theorem scatter_points_within_range (df : DataFrame) (site : String)
    (lo hi : ℚ) (h : lo ≤ hi) :
    ∀ pt ∈ (get_scatter_chart df site (lo, hi)).points,
      lo ≤ pt.1 ∧ pt.1 ≤ hi := by
  intro pt hpt
  obtain ⟨r, _, rfl, ⟨hlo, hhi⟩, _⟩ :=
    mem_scatter_points df site (lo, hi) pt hpt
  exact ⟨hlo, hhi⟩

/-- Witness for C2: the scatter chart over the sample table with range
`[0, 10000]` contains the point with payload mass 2500, and that mass lies
within the bounds. -/
theorem scatter_points_within_range_witness :
    (0 : ℚ) ≤ ((2500 : ℚ), (1 : Int), "v1.0").1
      ∧ ((2500 : ℚ), (1 : Int), "v1.0").1 ≤ 10000 :=
  scatter_points_within_range sampleDf "ALL" 0 10000 (by norm_num)
    ((2500 : ℚ), (1 : Int), "v1.0") (by decide)

/-- C7: for an inverted payload range (`hi < lo`) the scatter-chart
callback is still defined (no validation, no error) and renders an empty
point set. -/
theorem scatter_inverted_range_empty (df : DataFrame) (site : String)
    (lo hi : ℚ) (h : hi < lo) :
    (get_scatter_chart df site (lo, hi)).points = [] := by
  have hf : df.filter
      (fun r => lo ≤ r.payloadMass && r.payloadMass ≤ hi) = [] := by
    refine List.filter_eq_nil_iff.mpr ?_
    intro r _
    simp only [Bool.and_eq_true, decide_eq_true_eq, not_and]
    intro h1 h2
    exact absurd (le_trans h1 h2) (not_le.mpr h)
  simp [get_scatter_chart, hf, filterSiteEq]

/-- Witness for C7: the inverted range `[5000, 3000]` on the sample table
renders no points. -/
theorem scatter_inverted_range_empty_witness :
    (get_scatter_chart sampleDf "ALL" (5000, 3000)).points = [] :=
  scatter_inverted_range_empty sampleDf "ALL" 5000 3000 (by norm_num)

/-- C8: no callback invocation modifies the loaded table: after any
sequence of pie-chart and scatter-chart dispatches the table equals its
value at load time. -/
theorem callbacks_preserve_table (st : DataFrame) (cs : List Callback) :
    runCallbacks st cs = st :=
  runCallbacks_table_eq st cs

/-- C10: both callbacks are deterministic: invoking a callback after any
sequence of previous invocations yields the same figure data as invoking
it on the freshly loaded table, so two invocations with the same inputs
produce equal figures. -/
theorem callbacks_deterministic (st : DataFrame) (cs : List Callback)
    (c : Callback) :
    (dispatch (runCallbacks st cs) c).1 = (dispatch st c).1 := by
  rw [runCallbacks_table_eq]

/-- C9: an argument that parses as an integer is used directly as the
port, for every availability state (so no probing and no fallback); an
unparsable argument yields the default 8050, again for every availability
state, so even an occupied port is handed to `app.run`. -/
theorem explicit_port_used_directly (parsed : Option Int) :
    (∀ p : Int, parsed = some p →
      ∀ available : Int → Bool, choosePort (some parsed) available = some p)
    ∧ (parsed = none →
      ∀ available : Int → Bool, choosePort (some parsed) available = some 8050) := by
  constructor
  · intro p hp available
    simp [choosePort, hp]
  · intro hp available
    simp [choosePort, hp]

/-- Witness for C9: the argument 9090 is bound even when no port is
available, and an unparsable argument yields 8050 even when no port is
available. -/
theorem explicit_port_used_directly_witness :
    choosePort (some (some 9090)) (fun _ => false) = some 9090
    ∧ choosePort (some none) (fun _ => false) = some 8050 :=
  ⟨(explicit_port_used_directly (some 9090)).1 9090 rfl (fun _ => false),
   (explicit_port_used_directly none).2 rfl (fun _ => false)⟩

theorem selectPortNoArg_eq_none_iff (available : Int → Bool) :
    selectPortNoArg available = none
      ↔ ∀ p, p ∈ 8050 :: altPorts → available p = false := by
  constructor
  · intro h p hp
    rw [selectPortNoArg] at h
    by_cases h0 : available 8050
    · simp [h0] at h
    · rw [if_neg h0] at h
      cases hf : altPorts.find? available with
      | some q => rw [hf] at h; simp at h
      | none =>
        rcases List.mem_cons.mp hp with rfl | hp2
        · simpa using h0
        · simpa using List.find?_eq_none.mp hf p hp2
  · intro hall
    have h0 := hall 8050 (List.mem_cons_self _ _)
    have hf : altPorts.find? available = none :=
      List.find?_eq_none.mpr
        (fun p hp => by simp [hall p (List.mem_cons_of_mem _ hp)])
    simp [selectPortNoArg, h0, hf]

/-- C5: with no command-line argument, if 8050 is occupied and 8051 free
the selected port is 8051; if 8050 through 8055 are all occupied the block
exits with status 1 (modelled by `none`); and in general the alternates
8051..8055 are probed in ascending order with the first free one taken. -/
theorem port_fallback_correct (available : Int → Bool) :
    (available 8050 = false → available 8051 = true →
      selectPortNoArg available = some 8051)
    ∧ ((∀ p, p ∈ 8050 :: altPorts → available p = false) →
      selectPortNoArg available = none)
    ∧ (∀ p, available 8050 = false → selectPortNoArg available = some p →
      p ∈ altPorts ∧ available p = true
        ∧ ∀ q ∈ altPorts, q < p → available q = false) := by
  refine ⟨?_, ?_, ?_⟩
  · intro h0 h1
    simp [selectPortNoArg, h0, altPorts, List.find?, h1]
  · intro hall
    exact (selectPortNoArg_eq_none_iff available).mpr hall
  · intro p h0 hsel
    rw [selectPortNoArg, if_neg (by simp [h0])] at hsel
    cases h1 : available 8051 with
    | true =>
      rw [show altPorts.find? available = some 8051 by
        simp [altPorts, List.find?, h1]] at hsel
      obtain rfl : (8051 : Int) = p := by simpa using hsel
      refine ⟨by simp [altPorts], h1, ?_⟩
      intro q hq hlt
      simp [altPorts] at hq
      rcases hq with rfl | rfl | rfl | rfl | rfl <;> omega
    | false =>
      cases h2 : available 8052 with
      | true =>
        rw [show altPorts.find? available = some 8052 by
          simp [altPorts, List.find?, h1, h2]] at hsel
        obtain rfl : (8052 : Int) = p := by simpa using hsel
        refine ⟨by simp [altPorts], h2, ?_⟩
        intro q hq hlt
        simp [altPorts] at hq
        rcases hq with rfl | rfl | rfl | rfl | rfl <;>
          first | assumption | omega
      | false =>
        cases h3 : available 8053 with
        | true =>
          rw [show altPorts.find? available = some 8053 by
            simp [altPorts, List.find?, h1, h2, h3]] at hsel
          obtain rfl : (8053 : Int) = p := by simpa using hsel
          refine ⟨by simp [altPorts], h3, ?_⟩
          intro q hq hlt
          simp [altPorts] at hq
          rcases hq with rfl | rfl | rfl | rfl | rfl <;>
            first | assumption | omega
        | false =>
          cases h4 : available 8054 with
          | true =>
            rw [show altPorts.find? available = some 8054 by
              simp [altPorts, List.find?, h1, h2, h3, h4]] at hsel
            obtain rfl : (8054 : Int) = p := by simpa using hsel
            refine ⟨by simp [altPorts], h4, ?_⟩
            intro q hq hlt
            simp [altPorts] at hq
            rcases hq with rfl | rfl | rfl | rfl | rfl <;>
              first | assumption | omega
          | false =>
            cases h5 : available 8055 with
            | true =>
              rw [show altPorts.find? available = some 8055 by
                simp [altPorts, List.find?, h1, h2, h3, h4, h5]] at hsel
              obtain rfl : (8055 : Int) = p := by simpa using hsel
              refine ⟨by simp [altPorts], h5, ?_⟩
              intro q hq hlt
              simp [altPorts] at hq
              rcases hq with rfl | rfl | rfl | rfl | rfl <;>
                first | assumption | omega
            | false =>
              rw [show altPorts.find? available = none by
                simp [altPorts, List.find?, h1, h2, h3, h4, h5]] at hsel
              simp at hsel

/-- Witness for C5: when only 8051 is free the block picks 8051, and when
no port is free it exits. -/
theorem port_fallback_correct_witness :
    selectPortNoArg (fun p => p == 8051) = some 8051
    ∧ selectPortNoArg (fun _ => false) = none :=
  ⟨(port_fallback_correct (fun p => p == 8051)).1 (by decide) (by decide),
   (port_fallback_correct (fun _ => false)).2.1 (fun _ _ => rfl)⟩

/-- C6: an unparsable argument never aborts the process and yields the
default port 8050; and the only way the block terminates the process
(result `none`, i.e. exit status 1) is the no-argument case with every
port 8050..8055 occupied — so these are the only handled failure modes. -/
theorem port_failure_modes (available : Int → Bool) :
    (choosePort (some none) available = some 8050)
    ∧ (∀ argv1? : Option (Option Int),
      choosePort argv1? available = none
        ↔ argv1? = none ∧ ∀ p, p ∈ 8050 :: altPorts → available p = false) := by
  constructor
  · rfl
  · intro argv1?
    constructor
    · intro hnone
      cases argv1? with
      | some parsed =>
        exfalso
        cases parsed <;> simp [choosePort] at hnone
      | none =>
        exact ⟨rfl, (selectPortNoArg_eq_none_iff available).mp hnone⟩
    · rintro ⟨rfl, hall⟩
      exact (selectPortNoArg_eq_none_iff available).mpr hall

/-- Witness for C6: an unparsable argument yields 8050 with every port
occupied, and the no-argument, all-occupied case exits. -/
theorem port_failure_modes_witness :
    choosePort (some none) (fun _ => false) = some 8050
    ∧ choosePort none (fun _ => false) = none :=
  ⟨(port_failure_modes (fun _ => false)).1,
   ((port_failure_modes (fun _ => false)).2 none).mpr ⟨rfl, fun _ _ => rfl⟩⟩

theorem length_filterClassEq_split (l : DataFrame)
    (h : ∀ r ∈ l, r.cls = 0 ∨ r.cls = 1) :
    (filterClassEq l 1).length + (filterClassEq l 0).length = l.length := by
  induction l with
  | nil => rfl
  | cons r t ih =>
    have ht : ∀ x ∈ t, x.cls = 0 ∨ x.cls = 1 :=
      fun x hx => h x (List.mem_cons_of_mem r hx)
    have := ih ht
    rcases h r (List.mem_cons_self r t) with h0 | h0 <;>
      simp [filterClassEq, List.filter, h0] at this ⊢ <;> omega

theorem filterSiteEq_idem (df : DataFrame) (s : String) :
    filterSiteEq (filterSiteEq df s) s = filterSiteEq df s := by
  simp [filterSiteEq, List.filter_filter]

/-- C3: for a specific site, under the precondition that every class value
is 0 or 1, the pie chart has exactly the two slices Success and Failed and
their values sum to the number of rows of the selected site. -/
theorem pie_site_two_slices (df : DataFrame) (site : String)
    (hsite : site ≠ "ALL") (hcls : ∀ r ∈ df, r.cls = 0 ∨ r.cls = 1) :
    (get_pie_chart df site).slices.map Prod.fst = ["Success", "Failed"]
    ∧ (get_pie_chart df site).slices.length = 2
    ∧ ((get_pie_chart df site).slices.map Prod.snd).sum
        = df.countP (fun r => r.launchSite == site) := by
  have hb : (site == "ALL") = false := by simp [hsite]
  refine ⟨by simp [get_pie_chart, hb], by simp [get_pie_chart, hb], ?_⟩
  have hc : ∀ r ∈ filterSiteEq df site, r.cls = 0 ∨ r.cls = 1 :=
    fun r hr => hcls r (List.mem_of_mem_filter hr)
  have hsplit := length_filterClassEq_split (filterSiteEq df site) hc
  have hcount : df.countP (fun r => r.launchSite == site)
      = (filterSiteEq df site).length := by
    rw [filterSiteEq, List.countP_eq_length_filter]
  simp only [get_pie_chart, hb, Bool.false_eq_true, if_false,
    List.map_cons, List.map_nil, List.sum_cons, List.sum_nil, hcount]
  omega

/-- Witness for C3: the specific-site pie for the first sample site has
slices Success and Failed summing to that site's row count. -/
theorem pie_site_two_slices_witness :
    (get_pie_chart sampleDf "CCAFS LC-40").slices.map Prod.fst
      = ["Success", "Failed"]
    ∧ (get_pie_chart sampleDf "CCAFS LC-40").slices.length = 2
    ∧ ((get_pie_chart sampleDf "CCAFS LC-40").slices.map Prod.snd).sum
        = sampleDf.countP (fun r => r.launchSite == "CCAFS LC-40") :=
  pie_site_two_slices sampleDf "CCAFS LC-40" (by decide) (by decide)

/-- C4: with a non-ALL site selected, the pie chart is computed from the
site-matching rows alone, and every scatter point originates from a row of
the table whose launch site is exactly the selected site. -/
theorem non_all_site_restricts (df : DataFrame) (site : String)
    (pr : ℚ × ℚ) (h : site ≠ "ALL") :
    get_pie_chart df site = get_pie_chart (filterSiteEq df site) site
    ∧ ∀ pt ∈ (get_scatter_chart df site pr).points,
        ∃ r ∈ df, r.launchSite = site
          ∧ pt = (r.payloadMass, r.cls, r.boosterVersionCategory) := by
  have hb : (site == "ALL") = false := by simp [h]
  constructor
  · simp [get_pie_chart, hb, filterSiteEq_idem]
  · intro pt hpt
    obtain ⟨r, hr, hpt_eq, _, hsite⟩ := mem_scatter_points df site pr pt hpt
    exact ⟨r, hr, hsite h, hpt_eq⟩

/-- Witness for C4: for the sample table and the site KSC LC-39A the pie
chart agrees with the pie chart of the site-filtered table. -/
theorem non_all_site_restricts_witness :
    get_pie_chart sampleDf "KSC LC-39A"
      = get_pie_chart (filterSiteEq sampleDf "KSC LC-39A") "KSC LC-39A" :=
  (non_all_site_restricts sampleDf "KSC LC-39A" (0, 10000) (by decide)).1

theorem sum_dedup_count (l : List String) :
    (l.dedup.map fun s => l.count s).sum = l.length := by
  rw [← List.sum_toFinset _ l.nodup_dedup]
  rw [show l.dedup.toFinset = l.toFinset from by
    rw [List.toFinset, List.toFinset, ← Multiset.coe_dedup,
      Multiset.toFinset_dedup]]
  exact List.sum_toFinset_count_eq_length l

/-- C1: for the pie chart with input ALL, there is exactly one slice per
distinct launch site having at least one row with class 1 (the slice names
are distinct and a site appears among them exactly when the table has a
successful row for it), each slice value is that site's count of class-1
rows, and the slice values sum to the total number of class-1 rows. -/
theorem pie_all_sites_correct (df : DataFrame) :
    ((get_pie_chart df "ALL").slices.map Prod.fst).Nodup
    ∧ (∀ s, s ∈ (get_pie_chart df "ALL").slices.map Prod.fst
        ↔ ∃ r ∈ df, r.cls = 1 ∧ r.launchSite = s)
    ∧ (∀ p ∈ (get_pie_chart df "ALL").slices,
        p.2 = df.countP (fun r => r.cls == 1 && r.launchSite == p.1))
    ∧ ((get_pie_chart df "ALL").slices.map Prod.snd).sum
        = df.countP (fun r => r.cls == 1) := by
  have hfig : (get_pie_chart df "ALL").slices
      = siteValueCounts (filterClassEq df 1) := by
    simp [get_pie_chart]
  set L := (filterClassEq df 1).map (fun r => r.launchSite) with hL
  have hperm : (siteValueCounts (filterClassEq df 1)).Perm
      (L.dedup.map (fun s => (s, L.count s))) := List.mergeSort_perm _ _
  refine ⟨?_, ?_, ?_, ?_⟩
  · rw [hfig]
    refine ((hperm.map Prod.fst).nodup_iff).mpr ?_
    rw [List.map_map]
    show (L.dedup.map (fun x => x)).Nodup
    rw [List.map_id']
    exact L.nodup_dedup
  · intro s
    rw [hfig, (hperm.map Prod.fst).mem_iff, List.map_map]
    show s ∈ L.dedup.map (fun x => x) ↔ _
    rw [List.map_id', List.mem_dedup, hL]
    simp only [List.mem_map, filterClassEq, List.mem_filter, beq_iff_eq]
    constructor
    · rintro ⟨r, ⟨hr, hcls⟩, hsite⟩
      exact ⟨r, hr, hcls, hsite⟩
    · rintro ⟨r, hr, hcls, hsite⟩
      exact ⟨r, ⟨hr, hcls⟩, hsite⟩
  · intro p hp
    rw [hfig] at hp
    obtain ⟨s, hs, rfl⟩ := List.mem_map.mp (hperm.mem_iff.mp hp)
    show L.count s = df.countP (fun r => r.cls == 1 && r.launchSite == s)
    rw [List.count_eq_countP, hL, List.countP_map]
    rw [filterClassEq, List.countP_filter]
    refine List.countP_congr ?_
    intro r _
    simp only [Function.comp_apply, Bool.and_eq_true]
    tauto
  · rw [hfig, (hperm.map Prod.snd).sum_eq, List.map_map]
    show (L.dedup.map fun s => L.count s).sum = _
    rw [sum_dedup_count L, hL, List.length_map]
    rw [filterClassEq, ← List.countP_eq_length_filter]

/-- Witness for C1: on the sample table the all-sites slice values sum to
the total success count. -/
theorem pie_all_sites_correct_witness :
    ((get_pie_chart sampleDf "ALL").slices.map Prod.snd).sum
      = sampleDf.countP (fun r => r.cls == 1) :=
  (pie_all_sites_correct sampleDf).2.2.2

end SpacexDash
